import Mathlib

/-!
Verification development for the trading-journal analytics core
(src-tauri/src/analysis.rs and src-tauri/src/database.rs).

Modelling conventions:
- Rust f64 values are modelled as exact rationals; none of the verified
  properties depend on rounding.
- Where the source can produce the IEEE-754 special values (infinity, NaN)
  or a value that is irrational over the rationals (square roots, real
  powers), results live in the extended type `EF` below.  The IEEE special
  cases that the source actually exercises (division by zero, pow with
  zero exponent, min with a NaN operand) are spelled out exactly; the
  genuinely irrational expressions are kept symbolic, since no verified
  property has to evaluate them.
- u32 counters are modelled as Nat, timestamps as Int (in minutes for the
  cache clock, as rfc3339 strings where the source stores strings).
-/

/-- Extended rational value modelling an f64 result.  `fin q` is an exact
finite value, `inf`, `ninf` and `nan` are the IEEE specials; the last three
constructors keep the (irrational in general) real-valued expressions
symbolic: `powSym b e` stands for the real power b^e with finite positive
base and non-integer exponent, `sqrtSym q` for the square root of a
positive rational, `divSym a d` for a divided by the unevaluated d, and
`minSym x y` for the minimum of two values at least one of which is
unevaluated.  No verified property needs these evaluated further. -/
inductive EF where
  | fin (q : ℚ)
  | inf
  | ninf
  | nan
  | powSym (b e : ℚ)
  | sqrtSym (q : ℚ)
  | divSym (a : ℚ) (d : EF)
  | minSym (x y : EF)
deriving DecidableEq

/-- IEEE-754 division of two finite f64 values (Rust `a / b`): division by
zero yields a signed infinity, 0/0 yields NaN; the finite case is exact
rational division.  Signed zeros are conflated with 0. -/
def fdiv (a b : ℚ) : EF :=
  if b = 0 then
    (if a = 0 then EF.nan else if 0 < a then EF.inf else EF.ninf)
  else EF.fin (a / b)

/-- IEEE-754 division of a finite f64 by a possibly extended value,
modelling Rust `a / d` where d came out of an EF-valued computation. -/
def fdivF (a : ℚ) : EF → EF
  | EF.fin b =>
    if b = 0 then
      (if a = 0 then EF.nan else if 0 < a then EF.inf else EF.ninf)
    else EF.fin (a / b)
  | EF.inf => EF.fin 0
  | EF.ninf => EF.fin 0
  | EF.nan => EF.nan
  | d => EF.divSym a d

/-- IEEE-754 `powf` (Rust `x.powf(e)`) with an exact rational exponent.
Relevant IEEE cases: pow of anything (NaN included) to exponent 0 is 1;
pow of +infinity is +infinity for positive and 0 for negative exponents;
a zero base gives 0 or +infinity by the sign of the exponent; an integer
exponent on a finite base is exact rational zpow; a non-integer exponent
keeps a positive base symbolic and gives NaN on a negative base.  The
symbolic EF constructors never reach this function at any call site of the
source, so they map to NaN. -/
def fpow (x : EF) (e : ℚ) : EF :=
  if e = 0 then EF.fin 1
  else
    match x with
    | EF.inf => if 0 < e then EF.inf else EF.fin 0
    | EF.ninf =>
      if 0 < e then
        (if e.den = 1 ∧ e.num % 2 = 1 then EF.ninf else EF.inf)
      else EF.fin 0
    | EF.nan => EF.nan
    | EF.fin b =>
      if b = 0 then (if 0 < e then EF.fin 0 else EF.inf)
      else if e.den = 1 then EF.fin (b ^ e.num)
      else if 0 < b then EF.powSym b e
      else EF.nan
    | _ => EF.nan

/-- Rust `f64::min` (x.min(y)): when one operand is NaN the other is
returned; otherwise the usual minimum.  A minimum involving an unevaluated
symbolic value stays symbolic. -/
def fmin : EF → EF → EF
  | EF.nan, y => y
  | x, EF.nan => x
  | EF.fin a, EF.fin b => EF.fin (min a b)
  | EF.inf, y => y
  | x, EF.inf => x
  | EF.ninf, _ => EF.ninf
  | _, EF.ninf => EF.ninf
  | x, y => EF.minSym x y

/-- Square root of a finite f64 value: 0 at 0, NaN for negatives, kept
symbolic for positive rationals (the guard in the source only ever tests
the result against 0, and sqrt q = 0 iff q = 0). -/
def qsqrt (q : ℚ) : EF :=
  if q = 0 then EF.fin 0
  else if q < 0 then EF.nan
  else EF.sqrtSym q

/-- Modelled from the spec: `mean` of the external `statistical` crate
(the crate source is not part of this repository).  Arithmetic mean,
sum divided by length. -/
def mean (l : List ℚ) : ℚ := l.sum / l.length

/-- Modelled from the spec: `variance` of the external `statistical` crate
with the sample (n-1) convention required by the spec (section 4.1: all
standard deviations use the sample convention).  For a single-element list
the numerator is 0 and the denominator 0; rational division by zero gives
0, matching the degenerate policy of the spec (stdDev of a singleton
treated as 0). -/
def variance (l : List ℚ) : ℚ :=
  (l.map (fun x => (x - mean l) ^ 2)).sum / ((l.length : ℚ) - 1)

/-- Modelled from the spec: `standard_deviation` of the external
`statistical` crate, square root of the sample variance. -/
def standard_deviation (l : List ℚ) : EF := qsqrt (variance l)

/-- Analyzer::calculate_sharpe_ratio (analysis.rs lines 657-671): 0 on the
empty list, 0 when the standard deviation is 0, otherwise
(mean - 0.02) / std_dev with the hard-coded 2 percent risk-free rate. -/
def calculate_sharpe_ratio (returns : List ℚ) : EF :=
  if returns.isEmpty then EF.fin 0
  else
    let avg_return := mean returns
    let std_dev := standard_deviation returns
    if std_dev = EF.fin 0 then EF.fin 0
    else fdivF (avg_return - 1/50) std_dev

/-- Loop state of Analyzer::calculate_max_drawdown: the running peak, the
maximum drawdown seen so far, and the running cumulative sum. -/
structure DDState where
  peak : ℚ
  max_drawdown : ℚ
  running_sum : ℚ
deriving DecidableEq

/-- One iteration of the calculate_max_drawdown loop (analysis.rs lines
682-691): add the return to the running sum, raise the peak if exceeded,
and record the drawdown peak - running_sum if it is a new maximum. -/
def ddStep (st : DDState) (ret : ℚ) : DDState :=
  let running_sum := st.running_sum + ret
  let peak := if running_sum > st.peak then running_sum else st.peak
  let drawdown := peak - running_sum
  let max_drawdown :=
    if drawdown > st.max_drawdown then drawdown else st.max_drawdown
  { peak := peak, max_drawdown := max_drawdown, running_sum := running_sum }

/-- Analyzer::calculate_max_drawdown (analysis.rs lines 673-694): 0 on the
empty list; otherwise the loop above, with the peak initialised to the
FIRST element of the list (returns[0]) and the running sum to 0. -/
def calculate_max_drawdown (returns : List ℚ) : ℚ :=
  match returns with
  | [] => 0
  | r0 :: _ =>
    (returns.foldl ddStep
      { peak := r0, max_drawdown := 0, running_sum := 0 }).max_drawdown

/-- Analyzer::calculate_risk_of_ruin (analysis.rs lines 696-708): 0 when
avg_loss is exactly 0, otherwise ((1-p)/p)^(avg_win/|avg_loss|) clipped to
at most 1 via f64::min.  Note the guard tests avg_loss, not avg_win. -/
def calculate_risk_of_ruin (win_rate avg_win avg_loss : ℚ) : EF :=
  if avg_loss = 0 then EF.fin 0
  else
    let win_ratio := avg_win / |avg_loss|
    let p := win_rate
    let risk := fpow (fdiv (1 - p) p) win_ratio
    fmin risk (EF.fin 1)

/-- Analyzer::calculate_annual_return (analysis.rs lines 710-726):
(1 + total/n)^252 - 1.  The exponent 252 is an integer, so the power is
exact over the rationals. -/
def calculate_annual_return (returns : List ℚ) : ℚ :=
  if returns.isEmpty then 0
  else
    let total_return := returns.sum
    let trading_days := (returns.length : ℚ)
    let daily_return := total_return / trading_days
    (1 + daily_return) ^ (252 : ℕ) - 1

/-- Analyzer::calculate_sortino_ratio (analysis.rs lines 728-750): 0 on
empty input, +infinity when there are no negative returns, 0 when the
downside standard deviation is 0, otherwise (mean - 0.02) divided by the
downside standard deviation. -/
def calculate_sortino_ratio (returns : List ℚ) : EF :=
  if returns.isEmpty then EF.fin 0
  else
    let avg_return := mean returns
    let downside_returns := returns.filter (fun r => decide (r < 0))
    if downside_returns.isEmpty then EF.inf
    else
      let downside_deviation := standard_deviation downside_returns
      if downside_deviation = EF.fin 0 then EF.fin 0
      else fdivF (avg_return - 1/50) downside_deviation

/-!
## Report data model

The analysis report structures of analysis.rs lines 11-320, with u32 as
Nat, f64 as ℚ (or EF for the fields that can carry IEEE specials or
irrational values: profit factor, Sharpe, Sortino, volatility, risk of
ruin), Vec as List and HashMap as an association list.
-/

structure MonthlyReturn where
  year : ℤ
  month : ℕ
  return_percentage : ℚ
  profit : ℚ
  trades : ℕ
deriving DecidableEq

structure AnalysisSummary where
  total_trades : ℕ
  winning_trades : ℕ
  losing_trades : ℕ
  open_trades : ℕ
  win_rate : ℚ
  net_profit : ℚ
  gross_profit : ℚ
  gross_loss : ℚ
  profit_factor : EF
  expectancy : ℚ
  average_trade : ℚ
  sharpe_ratio : EF
  max_drawdown : ℚ
  recovery_factor : ℚ
  risk_of_ruin : EF
deriving DecidableEq

structure PerformanceMetrics where
  total_return : ℚ
  annual_return : ℚ
  monthly_return : List MonthlyReturn
  daily_returns : List ℚ
  volatility : EF
  alpha : ℚ
  beta : ℚ
  r_squared : ℚ
  information_ratio : ℚ
  calmar_ratio : ℚ
  sortino_ratio : EF
  ulcer_index : ℚ
deriving DecidableEq

structure EmotionalAnalysis where
  win_emotions : List (String × ℚ)
  loss_emotions : List (String × ℚ)
  emotion_impact : List (String × ℚ)
  confidence_trend : List ℚ
deriving DecidableEq

structure ConsistencyMetrics where
  win_streaks : List ℕ
  loss_streaks : List ℕ
  consistency_score : ℚ
  predictability : ℚ
  stability_index : ℚ
deriving DecidableEq

structure BehavioralPatterns where
  revenge_trading : Bool
  overtrading : Bool
  hesitation : Bool
  early_exits : Bool
  late_entries : Bool
deriving DecidableEq

structure StressAnalysis where
  stress_level : ℚ
  risk_tolerance : ℚ
  discipline_score : ℚ
  emotional_control : ℚ
deriving DecidableEq

structure PsychologicalMetrics where
  emotional_impact : EmotionalAnalysis
  consistency : ConsistencyMetrics
  behavioral_patterns : BehavioralPatterns
  stress_levels : StressAnalysis
deriving DecidableEq

structure PriceActionAnalysis where
  support_resistance_hits : ℕ
  breakout_success : ℚ
  reversal_accuracy : ℚ
  trend_following_success : ℚ
deriving DecidableEq

structure IndicatorAnalysis where
  rsi_effectiveness : ℚ
  macd_effectiveness : ℚ
  moving_average_effectiveness : ℚ
  bollinger_effectiveness : ℚ
deriving DecidableEq

structure TechnicalAnalysis where
  entry_accuracy : ℚ
  exit_accuracy : ℚ
  timing_efficiency : ℚ
  price_action : PriceActionAnalysis
  indicator_performance : IndicatorAnalysis
deriving DecidableEq

structure PatternPerformance where
  pattern : String
  total_trades : ℕ
  winning_trades : ℕ
  win_rate : ℚ
  average_profit : ℚ
  average_loss : ℚ
  profit_factor : ℚ
  best_scenario : String
  worst_scenario : String
deriving DecidableEq

structure TimeframeAnalysis where
  timeframe : String
  success_rate : ℚ
  average_holding_time : ℚ
  volatility_adjusted_return : ℚ
deriving DecidableEq

structure PatternCombination where
  patterns : List String
  win_rate : ℚ
  total_trades : ℕ
  average_rr : ℚ
deriving DecidableEq

structure CombinationAnalysis where
  best_combinations : List PatternCombination
  worst_combinations : List PatternCombination
  synergy_scores : List (String × ℚ)
deriving DecidableEq

structure ICTHeatmapData where
  pattern : String
  day_of_week : String
  hour_of_day : ℕ
  win_rate : ℚ
  total_trades : ℕ
deriving DecidableEq

structure ICTAnalysis where
  pattern_performance : List (String × PatternPerformance)
  timeframe_analysis : List (String × TimeframeAnalysis)
  combination_analysis : CombinationAnalysis
  win_rates : List (String × ℚ)
  heatmap_data : List ICTHeatmapData
deriving DecidableEq

structure HourlyPerformance where
  hour : ℕ
  total_trades : ℕ
  win_rate : ℚ
  average_profit : ℚ
  profit_per_trade : ℚ
deriving DecidableEq

structure DailyPerformance where
  day : String
  total_trades : ℕ
  win_rate : ℚ
  net_profit : ℚ
  best_hour : ℕ
  worst_hour : ℕ
deriving DecidableEq

structure MonthlyPerformance where
  month : String
  total_trades : ℕ
  win_rate : ℚ
  net_profit : ℚ
  consistency : ℚ
deriving DecidableEq

structure SeasonalAnalysis where
  quarterly_performance : List (String × ℚ)
  seasonal_patterns : List (String × ℚ)
  best_season : String
  worst_season : String
deriving DecidableEq

structure SessionPerformance where
  session : String
  total_trades : ℕ
  win_rate : ℚ
  net_profit : ℚ
  average_holding : ℚ
  volatility : ℚ
deriving DecidableEq

structure OverlapPerformance where
  london_new_york : SessionPerformance
  asian_london : SessionPerformance
  all_sessions : SessionPerformance
deriving DecidableEq

structure SessionAnalysis where
  asian_session : SessionPerformance
  london_session : SessionPerformance
  new_york_session : SessionPerformance
  overlap_sessions : OverlapPerformance
deriving DecidableEq

structure TimeBasedAnalysis where
  hourly_analysis : List (ℕ × HourlyPerformance)
  daily_analysis : List (String × DailyPerformance)
  monthly_analysis : List (String × MonthlyPerformance)
  seasonal_analysis : SeasonalAnalysis
  session_analysis : SessionAnalysis
deriving DecidableEq

structure PositionSizingAnalysis where
  optimal_position_size : ℚ
  kelly_criterion : ℚ
  risk_per_trade : ℚ
  max_portfolio_risk : ℚ
  position_sizing_score : ℚ
deriving DecidableEq

structure RiskMetrics where
  standard_deviation : ℚ
  semi_deviation : ℚ
  downside_deviation : ℚ
  value_at_risk : ℚ
  conditional_var : ℚ
  tail_risk : ℚ
deriving DecidableEq

structure VaRAnalysis where
  var_95 : ℚ
  var_99 : ℚ
  expected_shortfall : ℚ
  historical_var : ℚ
  parametric_var : ℚ
deriving DecidableEq

structure StressTesting where
  worst_case_scenario : ℚ
  black_swan_impact : ℚ
  correlation_breakdown : ℚ
  liquidity_crisis : ℚ
deriving DecidableEq

structure RiskAnalysis where
  position_sizing : PositionSizingAnalysis
  risk_metrics : RiskMetrics
  var_analysis : VaRAnalysis
  stress_testing : StressTesting
deriving DecidableEq

structure StrategyPerformance where
  strategy : String
  total_trades : ℕ
  win_rate : ℚ
  net_profit : ℚ
  profit_factor : ℚ
  sharpe_ratio : ℚ
  max_drawdown : ℚ
  recovery_factor : ℚ
deriving DecidableEq

structure StrategyAnalysis where
  strategy_performance : List (String × StrategyPerformance)
  strategy_correlation : List (String × ℚ)
  strategy_diversification : ℚ
  optimal_strategy_mix : List (String × ℚ)
deriving DecidableEq

structure TradeAnalysis where
  summary : AnalysisSummary
  performance : PerformanceMetrics
  psychological : PsychologicalMetrics
  technical : TechnicalAnalysis
  ict_analysis : ICTAnalysis
  time_analysis : TimeBasedAnalysis
  risk_analysis : RiskAnalysis
  strategy_analysis : StrategyAnalysis
deriving DecidableEq

/-!
## Canonical defaults

The source implements `Default for TradeAnalysis` and
`Default for AnalysisSummary` explicitly (analysis.rs lines 1080-1115,
every field zero); the remaining Default impls are elided behind the
comment at line 1117 ("Additional default implementations for all
structs").
-/

/-- Default for AnalysisSummary (analysis.rs lines 1095-1115): every
count, rate and metric is 0. -/
def AnalysisSummary.default : AnalysisSummary :=
  { total_trades := 0
    winning_trades := 0
    losing_trades := 0
    open_trades := 0
    win_rate := 0
    net_profit := 0
    gross_profit := 0
    gross_loss := 0
    profit_factor := EF.fin 0
    expectancy := 0
    average_trade := 0
    sharpe_ratio := EF.fin 0
    max_drawdown := 0
    recovery_factor := 0
    risk_of_ruin := EF.fin 0 }

/-- Modelled from the spec: the Default impl for PerformanceMetrics is
elided in the source (analysis.rs line 1117); per spec sections 4.2 and 8
the canonical default report has every numeric field 0 and every
collection empty. -/
def PerformanceMetrics.default : PerformanceMetrics :=
  { total_return := 0
    annual_return := 0
    monthly_return := []
    daily_returns := []
    volatility := EF.fin 0
    alpha := 0
    beta := 0
    r_squared := 0
    information_ratio := 0
    calmar_ratio := 0
    sortino_ratio := EF.fin 0
    ulcer_index := 0 }

/-- Modelled from the spec: elided Default impl, all zero and empty. -/
def EmotionalAnalysis.default : EmotionalAnalysis :=
  { win_emotions := [], loss_emotions := [], emotion_impact := []
    confidence_trend := [] }

/-- Modelled from the spec: elided Default impl, all zero and empty. -/
def ConsistencyMetrics.default : ConsistencyMetrics :=
  { win_streaks := [], loss_streaks := [], consistency_score := 0
    predictability := 0, stability_index := 0 }

/-- Modelled from the spec: elided Default impl, all flags false. -/
def BehavioralPatterns.default : BehavioralPatterns :=
  { revenge_trading := false, overtrading := false, hesitation := false
    early_exits := false, late_entries := false }

/-- Modelled from the spec: elided Default impl, all zero. -/
def StressAnalysis.default : StressAnalysis :=
  { stress_level := 0, risk_tolerance := 0, discipline_score := 0
    emotional_control := 0 }

/-- Modelled from the spec: elided Default impl, all zero and empty. -/
def PsychologicalMetrics.default : PsychologicalMetrics :=
  { emotional_impact := EmotionalAnalysis.default
    consistency := ConsistencyMetrics.default
    behavioral_patterns := BehavioralPatterns.default
    stress_levels := StressAnalysis.default }

/-- Modelled from the spec: elided Default impl, all zero. -/
def PriceActionAnalysis.default : PriceActionAnalysis :=
  { support_resistance_hits := 0, breakout_success := 0
    reversal_accuracy := 0, trend_following_success := 0 }

/-- Modelled from the spec: elided Default impl, all zero. -/
def IndicatorAnalysis.default : IndicatorAnalysis :=
  { rsi_effectiveness := 0, macd_effectiveness := 0
    moving_average_effectiveness := 0, bollinger_effectiveness := 0 }

/-- Modelled from the spec: elided Default impl, all zero. -/
def TechnicalAnalysis.default : TechnicalAnalysis :=
  { entry_accuracy := 0, exit_accuracy := 0, timing_efficiency := 0
    price_action := PriceActionAnalysis.default
    indicator_performance := IndicatorAnalysis.default }

/-- Modelled from the spec: elided Default impl, all empty. -/
def CombinationAnalysis.default : CombinationAnalysis :=
  { best_combinations := [], worst_combinations := [], synergy_scores := [] }

/-- Modelled from the spec: elided Default impl, all empty. -/
def ICTAnalysis.default : ICTAnalysis :=
  { pattern_performance := [], timeframe_analysis := []
    combination_analysis := CombinationAnalysis.default
    win_rates := [], heatmap_data := [] }

/-- Modelled from the spec: elided Default impl, all zero and empty. -/
def SeasonalAnalysis.default : SeasonalAnalysis :=
  { quarterly_performance := [], seasonal_patterns := []
    best_season := "", worst_season := "" }

/-- Modelled from the spec: elided Default impl, all zero. -/
def SessionPerformance.default : SessionPerformance :=
  { session := "", total_trades := 0, win_rate := 0, net_profit := 0
    average_holding := 0, volatility := 0 }

/-- Modelled from the spec: elided Default impl, all zero. -/
def OverlapPerformance.default : OverlapPerformance :=
  { london_new_york := SessionPerformance.default
    asian_london := SessionPerformance.default
    all_sessions := SessionPerformance.default }

/-- Modelled from the spec: elided Default impl, all zero. -/
def SessionAnalysis.default : SessionAnalysis :=
  { asian_session := SessionPerformance.default
    london_session := SessionPerformance.default
    new_york_session := SessionPerformance.default
    overlap_sessions := OverlapPerformance.default }

/-- Modelled from the spec: elided Default impl, all zero and empty. -/
def TimeBasedAnalysis.default : TimeBasedAnalysis :=
  { hourly_analysis := [], daily_analysis := [], monthly_analysis := []
    seasonal_analysis := SeasonalAnalysis.default
    session_analysis := SessionAnalysis.default }

/-- Modelled from the spec: elided Default impl, all zero. -/
def PositionSizingAnalysis.default : PositionSizingAnalysis :=
  { optimal_position_size := 0, kelly_criterion := 0, risk_per_trade := 0
    max_portfolio_risk := 0, position_sizing_score := 0 }

/-- Modelled from the spec: elided Default impl, all zero. -/
def RiskMetrics.default : RiskMetrics :=
  { standard_deviation := 0, semi_deviation := 0, downside_deviation := 0
    value_at_risk := 0, conditional_var := 0, tail_risk := 0 }

/-- Modelled from the spec: elided Default impl, all zero. -/
def VaRAnalysis.default : VaRAnalysis :=
  { var_95 := 0, var_99 := 0, expected_shortfall := 0
    historical_var := 0, parametric_var := 0 }

/-- Modelled from the spec: elided Default impl, all zero. -/
def StressTesting.default : StressTesting :=
  { worst_case_scenario := 0, black_swan_impact := 0
    correlation_breakdown := 0, liquidity_crisis := 0 }

/-- Modelled from the spec: elided Default impl, all zero. -/
def RiskAnalysis.default : RiskAnalysis :=
  { position_sizing := PositionSizingAnalysis.default
    risk_metrics := RiskMetrics.default
    var_analysis := VaRAnalysis.default
    stress_testing := StressTesting.default }

/-- Modelled from the spec: elided Default impl, all zero and empty. -/
def StrategyAnalysis.default : StrategyAnalysis :=
  { strategy_performance := [], strategy_correlation := []
    strategy_diversification := 0, optimal_strategy_mix := [] }

/-- Default for TradeAnalysis (analysis.rs lines 1080-1093): each of the
eight sub-reports takes its own default. -/
def TradeAnalysis.default : TradeAnalysis :=
  { summary := AnalysisSummary.default
    performance := PerformanceMetrics.default
    psychological := PsychologicalMetrics.default
    technical := TechnicalAnalysis.default
    ict_analysis := ICTAnalysis.default
    time_analysis := TimeBasedAnalysis.default
    risk_analysis := RiskAnalysis.default
    strategy_analysis := StrategyAnalysis.default }

/-!
## Trade data model (database.rs lines 11-66)
-/

/-- NewTrade (database.rs lines 11-50).  The struct as declared has no
exit price field, yet DatabaseState::calculate_trade_metrics reads
trade.exit_price (database.rs line 750) and the trades table has an
exit_price column; the field is therefore included here as the optional
value the metrics code reads. -/
structure NewTrade where
  symbol : String
  trade_type : String
  volume : ℚ
  entry_price : ℚ
  sl : ℚ
  tp : ℚ
  entry_time : String
  notes : Option String
  commission : Option ℚ
  swap : Option ℚ
  ict_pattern : Option String
  pattern_type : Option String
  pattern_size : Option ℚ
  pattern_timeframe : Option String
  pattern_combination : Option (List String)
  chart_explanation : Option String
  strategy_name : Option String
  emotion : Option String
  confidence_level : Option ℚ
  market_condition : Option String
  session : Option String
  entry_image : Option String
  exit_image : Option String
  analysis_image : Option String
  rsi : Option ℚ
  macd : Option ℚ
  moving_average : Option ℚ
  support_level : Option ℚ
  resistance_level : Option ℚ
  exit_price : Option ℚ
deriving DecidableEq

/-- Trade (database.rs lines 52-66): a stored row, the NewTrade payload
plus the derived and audit fields.  Timestamps are kept as the rfc3339
strings the source binds. -/
structure Trade where
  id : ℕ
  new_trade : NewTrade
  is_win : Option Bool
  exit_price : Option ℚ
  exit_time : Option String
  profit_loss_pips : Option ℚ
  profit_loss_money : Option ℚ
  risk_reward_ratio : Option ℚ
  created_at : String
  updated_at : String
  version : ℕ
deriving DecidableEq

/-!
## Analysis builder (analysis.rs lines 418-655 and 1034-1076)
-/

/-- Profit and loss values of a trade list, as read inside the analysis
functions: t.profit_loss_money.unwrap_or(0.0). -/
def profitsOf (trades : List Trade) : List ℚ :=
  trades.map (fun t => t.profit_loss_money.getD 0)

/-- Gross profit, the let-binding of that name in
Analyzer::calculate_summary (analysis.rs line 470): sum of the strictly
positive values. -/
def gross_profit (profits : List ℚ) : ℚ :=
  (profits.filter (fun p => decide (0 < p))).sum

/-- Gross loss, the let-binding of that name in Analyzer::calculate_summary
(analysis.rs line 471): absolute value of the sum of the strictly negative
values. -/
def gross_loss (profits : List ℚ) : ℚ :=
  |(profits.filter (fun p => decide (p < 0))).sum|

/-- Profit factor, the let-binding of that name in
Analyzer::calculate_summary (analysis.rs lines 473-477): gross profit over
gross loss when the gross loss is strictly positive, +infinity otherwise
(also when both are 0, e.g. on an empty list). -/
def profit_factor (profits : List ℚ) : EF :=
  if 0 < gross_loss profits then
    EF.fin (gross_profit profits / gross_loss profits)
  else EF.inf

/-- Analyzer::calculate_summary (analysis.rs lines 453-517).  Counters and
rates are computed from the trade list and its closed slice exactly as in
the source; the unwrap() on is_win of a closed trade is modelled with a
default that keeps a (contractually impossible) open trade out of both the
winning and the losing count. -/
def calculate_summary (trades : List Trade) (closed_trades : List Trade) :
    AnalysisSummary :=
  let total_trades := trades.length
  let open_trades := (trades.filter (fun t => t.is_win.isNone)).length
  let winning_trades :=
    (closed_trades.filter (fun t => t.is_win.getD false)).length
  let losing_trades :=
    (closed_trades.filter (fun t => !(t.is_win.getD true))).length
  let win_rate : ℚ :=
    if closed_trades.isEmpty then 0
    else ((winning_trades : ℚ) / (closed_trades.length : ℚ)) * 100
  let profits := profitsOf closed_trades
  let net_profit := profits.sum
  let average_win : ℚ :=
    if 0 < winning_trades then
      (profits.filter (fun p => decide (0 < p))).sum / (winning_trades : ℚ)
    else 0
  let average_loss : ℚ :=
    if 0 < losing_trades then
      |(profits.filter (fun p => decide (p < 0))).sum| / (losing_trades : ℚ)
    else 0
  let expectancy :=
    (win_rate / 100) * average_win - ((100 - win_rate) / 100) * average_loss
  let average_trade : ℚ :=
    if !closed_trades.isEmpty then net_profit / (closed_trades.length : ℚ)
    else 0
  let mdd := calculate_max_drawdown profits
  let recovery_factor : ℚ := if 0 < mdd then net_profit / mdd else 0
  { total_trades := total_trades
    winning_trades := winning_trades
    losing_trades := losing_trades
    open_trades := open_trades
    win_rate := win_rate
    net_profit := net_profit
    gross_profit := gross_profit profits
    gross_loss := gross_loss profits
    profit_factor := profit_factor profits
    expectancy := expectancy
    average_trade := average_trade
    sharpe_ratio := calculate_sharpe_ratio profits
    max_drawdown := mdd
    recovery_factor := recovery_factor
    risk_of_ruin :=
      calculate_risk_of_ruin (win_rate / 100) average_win average_loss }

/-- Placeholder metric implementations (analysis.rs lines 1035-1043). -/
def calculate_alpha (_returns : List ℚ) : ℚ := 0

/-- Placeholder (analysis.rs line 1036): constant 1. -/
def calculate_beta (_returns : List ℚ) : ℚ := 1

/-- Placeholder (analysis.rs line 1037). -/
def calculate_r_squared (_returns : List ℚ) : ℚ := 0

/-- Placeholder (analysis.rs line 1038). -/
def calculate_information_ratio (_returns : List ℚ) : ℚ := 0

/-- Placeholder (analysis.rs line 1039). -/
def calculate_calmar_ratio (_returns : List ℚ) : ℚ := 0

/-- Placeholder (analysis.rs line 1040). -/
def calculate_ulcer_index (_returns : List ℚ) : ℚ := 0

/-- Placeholder (analysis.rs line 1042). -/
def calculate_monthly_returns (_trades : List Trade) : List MonthlyReturn := []

/-- Placeholder (analysis.rs line 1043). -/
def calculate_daily_returns (_trades : List Trade) : List ℚ := []

/-- Analyzer::calculate_performance_metrics (analysis.rs lines 520-558):
default on an empty closed slice, otherwise the real total/annual return,
volatility and Sortino plus the placeholder metrics. -/
def calculate_performance_metrics (closed_trades : List Trade) :
    PerformanceMetrics :=
  if closed_trades.isEmpty then PerformanceMetrics.default
  else
    let profits := profitsOf closed_trades
    { total_return := profits.sum
      annual_return := calculate_annual_return profits
      monthly_return := calculate_monthly_returns closed_trades
      daily_returns := calculate_daily_returns closed_trades
      volatility := standard_deviation profits
      alpha := calculate_alpha profits
      beta := calculate_beta profits
      r_squared := calculate_r_squared profits
      information_ratio := calculate_information_ratio profits
      calmar_ratio := calculate_calmar_ratio profits
      sortino_ratio := calculate_sortino_ratio profits
      ulcer_index := calculate_ulcer_index profits }

/-- Analyzer::analyze_psychological_aspects (analysis.rs lines 561-573),
whose four helpers (lines 1045-1048) all return defaults. -/
def analyze_psychological_aspects (_trades : List Trade) :
    PsychologicalMetrics :=
  { emotional_impact := EmotionalAnalysis.default
    consistency := ConsistencyMetrics.default
    behavioral_patterns := BehavioralPatterns.default
    stress_levels := StressAnalysis.default }

/-- Analyzer::perform_technical_analysis (analysis.rs lines 576-590),
whose helpers (lines 1050-1054) return 0 or defaults. -/
def perform_technical_analysis (_closed_trades : List Trade) :
    TechnicalAnalysis :=
  { entry_accuracy := 0, exit_accuracy := 0, timing_efficiency := 0
    price_action := PriceActionAnalysis.default
    indicator_performance := IndicatorAnalysis.default }

/-- Analyzer::analyze_ict_patterns (analysis.rs lines 593-607), whose
helpers (lines 1056-1060) return empty maps and defaults. -/
def analyze_ict_patterns (_closed_trades : List Trade) : ICTAnalysis :=
  { pattern_performance := [], timeframe_analysis := []
    combination_analysis := CombinationAnalysis.default
    win_rates := [], heatmap_data := [] }

/-- Analyzer::analyze_time_based_patterns (analysis.rs lines 610-624),
whose helpers (lines 1062-1066) return empty maps and defaults. -/
def analyze_time_based_patterns (_closed_trades : List Trade) :
    TimeBasedAnalysis :=
  { hourly_analysis := [], daily_analysis := [], monthly_analysis := []
    seasonal_analysis := SeasonalAnalysis.default
    session_analysis := SessionAnalysis.default }

/-- Analyzer::perform_risk_analysis (analysis.rs lines 627-639), whose
helpers (lines 1068-1071) return defaults. -/
def perform_risk_analysis (_closed_trades : List Trade) : RiskAnalysis :=
  { position_sizing := PositionSizingAnalysis.default
    risk_metrics := RiskMetrics.default
    var_analysis := VaRAnalysis.default
    stress_testing := StressTesting.default }

/-- Analyzer::analyze_strategy_performance (analysis.rs lines 642-654),
whose helpers (lines 1073-1076) return empty maps and 0. -/
def analyze_strategy_performance (_closed_trades : List Trade) :
    StrategyAnalysis :=
  { strategy_performance := [], strategy_correlation := []
    strategy_diversification := 0, optimal_strategy_mix := [] }

/-- Analyzer::perform_comprehensive_analysis (analysis.rs lines 419-450):
filter the closed slice (is_win present) and assemble the eight
independently computed sub-reports. -/
def perform_comprehensive_analysis (trades : List Trade) : TradeAnalysis :=
  let closed_trades := trades.filter (fun t => t.is_win.isSome)
  { summary := calculate_summary trades closed_trades
    performance := calculate_performance_metrics closed_trades
    psychological := analyze_psychological_aspects trades
    technical := perform_technical_analysis closed_trades
    ict_analysis := analyze_ict_patterns closed_trades
    time_analysis := analyze_time_based_patterns closed_trades
    risk_analysis := perform_risk_analysis closed_trades
    strategy_analysis := analyze_strategy_performance closed_trades }

/-!
## Analysis cache (analysis.rs lines 339-345, 385-416, 983-987)

The cache clock ticks in minutes: `now - last_update < 5` models
`Utc::now().signed_duration_since(last_update).num_minutes() < 5`.
The repository read (get_all_trades, analysis.rs lines 937-941) is passed
in as an `Except`; the outcome records, besides the returned value and the
cache state after the call, how many repository fetches and how many
builder invocations (perform_comprehensive_analysis calls, the only entry
point into the sub-analyses) the call performed.
-/

/-- Repository failure (SqlxError) surfaced by the trade fetch. -/
structure RepoErr where
  msg : String
deriving DecidableEq

/-- AnalysisCache (analysis.rs lines 340-345). -/
structure AnalysisCache where
  trade_analysis : Option TradeAnalysis
  last_update : Option ℤ
  ict_analysis : Option ICTAnalysis
  performance_cache : List (String × PerformanceMetrics)
deriving DecidableEq

/-- Result of one analyze_trades call: the value returned to the caller,
the cache contents after the call, and the number of repository fetches
and builder invocations performed. -/
structure AnalyzeOutcome where
  result : Except RepoErr TradeAnalysis
  new_cache : AnalysisCache
  repo_fetches : ℕ
  builder_calls : ℕ

/-- Cache-miss path of Analyzer::analyze_trades (analysis.rs lines
397-415): fetch all trades (propagating a repository error with the cache
untouched), return the default report on an empty trade list WITHOUT
updating the cache, otherwise run the builder and replace both cache
fields. -/
def analyzeMiss (now : ℤ) (repo : Except RepoErr (List Trade))
    (c : AnalysisCache) : AnalyzeOutcome :=
  match repo with
  | Except.error e => ⟨Except.error e, c, 1, 0⟩
  | Except.ok trades =>
    if trades.isEmpty then ⟨Except.ok TradeAnalysis.default, c, 1, 0⟩
    else
      let analysis := perform_comprehensive_analysis trades
      ⟨Except.ok analysis,
        { c with trade_analysis := some analysis, last_update := some now },
        1, 1⟩

/-- Analyzer::analyze_trades (analysis.rs lines 385-416): if the cache
holds a report and a timestamp younger than 5 minutes, return the held
report with no repository or builder activity; otherwise take the miss
path. -/
def analyze_trades (now : ℤ) (repo : Except RepoErr (List Trade))
    (c : AnalysisCache) : AnalyzeOutcome :=
  match c.trade_analysis, c.last_update with
  | some analysis, some lu =>
    if now - lu < 5 then ⟨Except.ok analysis, c, 0, 0⟩
    else analyzeMiss now repo c
  | _, _ => analyzeMiss now repo c

/-- The freshness condition of the cache-hit branch, as a predicate. -/
def cacheFresh (now : ℤ) (c : AnalysisCache) : Bool :=
  match c.trade_analysis, c.last_update with
  | some _, some lu => decide (now - lu < 5)
  | _, _ => false

/-- Result of one update_cache call (analysis.rs lines 983-987): the unit
result returned to the caller plus the same bookkeeping as analyze_trades. -/
structure UpdateOutcome where
  result : Except RepoErr Unit
  new_cache : AnalysisCache
  repo_fetches : ℕ
  builder_calls : ℕ

/-- Analyzer::update_cache (analysis.rs lines 983-987), the documented
"Force cache update" entry point invoked after trade mutations: it merely
delegates to analyze_trades and discards the report. -/
def update_cache (now : ℤ) (repo : Except RepoErr (List Trade))
    (c : AnalysisCache) : UpdateOutcome :=
  let o := analyze_trades now repo c
  ⟨o.result.map (fun _ => Unit.unit), o.new_cache, o.repo_fetches,
    o.builder_calls⟩

/-!
## Database operations (database.rs lines 447-511, 590-625, 745-782)
-/

/-- Derived fields of DatabaseState::calculate_trade_metrics, in the order
of the returned tuple. -/
structure TradeMetrics where
  is_win : Option Bool
  profit_loss_pips : Option ℚ
  profit_loss_money : Option ℚ
  risk_reward_ratio : Option ℚ
deriving DecidableEq

/-- Substring test modelling Rust str::contains, used for the JPY pip
scaling: the separator occurs iff splitting on it yields more than one
piece. -/
def containsSub (s pat : String) : Bool := 1 < (s.splitOn pat).length

/-- DatabaseState::calculate_trade_metrics (database.rs lines 745-782):
all None for an open trade; otherwise P/L in pips scaled by 100 for JPY
symbols and 10000 otherwise, P/L in money (exit - entry) * volume * 100000
with no dependence on the trade direction, the win flag
profit_loss_money > 0 for a "Buy" trade and profit_loss_money < 0 for any
other trade type, and reward over risk against the stop and target. -/
def calculate_trade_metrics (trade : NewTrade) : TradeMetrics :=
  match trade.exit_price with
  | none => ⟨none, none, none, none⟩
  | some exit_price =>
    let entry_price := trade.entry_price
    let volume := trade.volume
    let price_diff := exit_price - entry_price
    let profit_loss_pips :=
      if containsSub trade.symbol "JPY" then price_diff * 100
      else price_diff * 10000
    let profit_loss_money := price_diff * volume * 100000
    let is_win :=
      if trade.trade_type = "Buy" then decide (0 < profit_loss_money)
      else decide (profit_loss_money < 0)
    let risk := |entry_price - trade.sl|
    let reward := |trade.tp - entry_price|
    let risk_reward_ratio : ℚ := if 0 < risk then reward / risk else 0
    ⟨some is_win, some profit_loss_pips, some profit_loss_money,
      some risk_reward_ratio⟩

/-- DatabaseState::create_trade (database.rs lines 447-511): computes the
derived metrics, then inserts the row with created_at = updated_at = now
and version 1.  The INSERT names no exit_price or exit_time column, so the
stored row carries none. -/
def create_trade (id : ℕ) (now : String) (trade : NewTrade) : Trade :=
  let m := calculate_trade_metrics trade
  { id := id
    new_trade := trade
    is_win := m.is_win
    exit_price := none
    exit_time := none
    profit_loss_pips := m.profit_loss_pips
    profit_loss_money := m.profit_loss_money
    risk_reward_ratio := m.risk_reward_ratio
    created_at := now
    updated_at := now
    version := 1 }

/-- A value stored in a column of the trades table (the serde_json values
bound by update_trade, as stored by SQLite). -/
inductive SqlValue where
  | nullV
  | intV (n : ℤ)
  | realV (q : ℚ)
  | textV (s : String)
deriving DecidableEq

/-- A table row as the dynamic update path sees it: column name to value. -/
def Row : Type := List (String × SqlValue)

/-- Value of a column in a row. -/
def rowGet (r : Row) (k : String) : Option SqlValue :=
  (r.find? (fun p => p.1 = k)).map (fun p => p.2)

/-- Overwrite (or add) a column of a row. -/
def rowSet (r : Row) (k : String) (v : SqlValue) : Row :=
  (k, v) :: r.filter (fun p => ¬ p.1 = k)

/-- SQLite evaluation of the expression `version + 1`: integer and real
values increment exactly, NULL + 1 is NULL, text is coerced through its
integer reading (SQLite numeric affinity; the version column is INTEGER,
so stored values are integers in practice). -/
def sqlPlusOne : SqlValue → SqlValue
  | SqlValue.intV n => SqlValue.intV (n + 1)
  | SqlValue.realV q => SqlValue.realV (q + 1)
  | SqlValue.nullV => SqlValue.nullV
  | SqlValue.textV s => SqlValue.intV ((s.toInt?.getD 0) + 1)

/-- Apply the SET list of an UPDATE statement: every right-hand side is
evaluated against the ORIGINAL row (SQL semantics), and when the same
column is assigned more than once only the rightmost assignment survives
(SQLite UPDATE semantics), which the left-to-right overwrite realises. -/
def applyAssignments (orig : Row)
    (assigns : List (String × (Row → SqlValue))) : Row :=
  assigns.foldl (fun acc kv => rowSet acc kv.1 (kv.2 orig)) orig

/-- DatabaseState::update_trade (database.rs lines 590-625): the dynamic
SET clauses from the caller-supplied updates map come first, then always
`updated_at = now` and `version = version + 1` are appended (lines
606-609), so the forced clauses are rightmost and win over any
caller-supplied assignment to the same columns. -/
def update_trade (now : String) (updates : List (String × SqlValue))
    (row : Row) : Row :=
  let set_clauses : List (String × (Row → SqlValue)) :=
    updates.map (fun kv => (kv.1, fun _ => kv.2)) ++
      [("updated_at", fun _ => SqlValue.textV now),
       ("version", fun r => sqlPlusOne ((rowGet r "version").getD
         SqlValue.nullV))]
  applyAssignments row set_clauses

/-!
## Concrete sample values used by witnesses and counterexamples
-/

/-- A NewTrade payload with the optional fields absent. -/
def baseNewTrade : NewTrade :=
  { symbol := "EURUSD", trade_type := "Buy", volume := 1, entry_price := 1
    sl := 1, tp := 1, entry_time := "2026-01-01T00:00:00Z", notes := none
    commission := none, swap := none, ict_pattern := none
    pattern_type := none, pattern_size := none, pattern_timeframe := none
    pattern_combination := none, chart_explanation := none
    strategy_name := none, emotion := none, confidence_level := none
    market_condition := none, session := none, entry_image := none
    exit_image := none, analysis_image := none, rsi := none, macd := none
    moving_average := none, support_level := none, resistance_level := none
    exit_price := none }

/-- One closed losing trade with realized P/L -100 (the scenario of the
spec, section 8 last bullet). -/
def lossTrade100 : Trade :=
  { id := 1, new_trade := baseNewTrade, is_win := some false
    exit_price := none, exit_time := none, profit_loss_pips := none
    profit_loss_money := some (-100), risk_reward_ratio := none
    created_at := "2026-01-01T00:00:00Z"
    updated_at := "2026-01-01T00:00:00Z", version := 1 }

/-- One closed trade with realized P/L 0, used to populate a repository
whose recomputed report differs from the cached default. -/
def zeroClosedTrade : Trade :=
  { id := 2, new_trade := baseNewTrade, is_win := some false
    exit_price := none, exit_time := none, profit_loss_pips := none
    profit_loss_money := some 0, risk_reward_ratio := none
    created_at := "2026-01-01T00:00:00Z"
    updated_at := "2026-01-01T00:00:00Z", version := 1 }

/-- The cache at startup: no report, no timestamp. -/
def emptyCache : AnalysisCache :=
  { trade_analysis := none, last_update := none, ict_analysis := none
    performance_cache := [] }

/-- A cache holding a report computed at minute 0 (fresh for any call
before minute 5). -/
def freshSampleCache : AnalysisCache :=
  { trade_analysis := some TradeAnalysis.default, last_update := some 0
    ict_analysis := none, performance_cache := [] }

/-- A Sell order with exit above entry: the metrics code stores a negative
P/L and still flags it as a win. -/
def sampleSellNewTrade : NewTrade :=
  { baseNewTrade with
    trade_type := "Sell"
    entry_price := 6/5
    exit_price := some (11/10) }

/-!
## Claim theorems
-/

/-- C1 counterexample: the claim says calculate_risk_of_ruin applied to
win_rate 0, avg_win 0, avg_loss 100 returns 0.0, and that the summary of
the one closed trade with P/L -100 has risk_of_ruin 0.0.  Both are false:
the guard tests avg_loss (100, not 0), the base (1-0)/0 is +infinity and
infinity to the exponent 0 is 1 under IEEE-754, clipped to 1. -/
theorem C1_risk_of_ruin_claim_false :
    calculate_risk_of_ruin 0 0 100 ≠ EF.fin 0 ∧
    AnalysisSummary.risk_of_ruin
      (calculate_summary [lossTrade100] [lossTrade100]) ≠ EF.fin 0 := by
  constructor
  · norm_num [ calculate_risk_of_ruin, fdiv, fpow, fmin]
  · norm_num [calculate_summary, lossTrade100, profitsOf,
      calculate_risk_of_ruin, fdiv, fpow, fmin]

/-- C1 amended: for the input of one closed trade with P/L -100 (win rate
0, avg win 0, avg loss 100), calculate_risk_of_ruin and the summary field
built from it return 1.0, not 0.0: the avg_loss guard does not fire, the
base (1-p)/p is +infinity at p = 0, infinity^0 = 1, and min(1, 1) = 1. -/
theorem C1_risk_of_ruin_returns_one :
    calculate_risk_of_ruin 0 0 100 = EF.fin 1 ∧
    AnalysisSummary.risk_of_ruin
      (calculate_summary [lossTrade100] [lossTrade100]) = EF.fin 1 := by
  constructor
  · norm_num [ calculate_risk_of_ruin, fdiv, fpow, fmin]
  · norm_num [calculate_summary, lossTrade100, profitsOf,
      calculate_risk_of_ruin, fdiv, fpow, fmin]

/-- C3 counterexample: the claim states profit_factor = +infinity iff
gross loss = 0 AND gross profit > 0.  On the empty P/L sequence (a trade
set with no closed trades) both gross figures are 0 and the code still
returns +infinity, so the stated equivalence is false. -/
theorem C3_profit_factor_claim_false :
    ¬ (profit_factor [] = EF.inf ↔
        (gross_loss [] = 0 ∧ 0 < gross_profit [])) := by
  intro h
  have h1 : profit_factor [] = EF.inf := by
    norm_num [profit_factor, gross_loss, gross_profit]
  have h2 := (h.mp h1).2
  norm_num [gross_profit] at h2

/-- C3 amended: profit_factor is +infinity iff the gross loss is exactly
0 (regardless of the gross profit, which may also be 0, e.g. on the empty
sequence); when the gross loss is nonzero it equals gross profit divided
by gross loss; and the summary field is exactly this function of the
closed-trade P/L sequence. -/
theorem C3_profit_factor_iff_gross_loss_zero : ∀ l : List ℚ,
    (profit_factor l = EF.inf ↔ gross_loss l = 0) ∧
    (gross_loss l ≠ 0 →
      profit_factor l = EF.fin (gross_profit l / gross_loss l)) ∧
    (∀ trades closed : List Trade,
      AnalysisSummary.profit_factor (calculate_summary trades closed) =
        profit_factor (profitsOf closed)) := by
  intro l
  have h0 : 0 ≤ gross_loss l := abs_nonneg _
  refine ⟨?_, ?_, ?_⟩
  · rcases lt_or_eq_of_le h0 with hpos | heq
    · rw [profit_factor, if_pos hpos]
      simp [ne_of_gt hpos]
    · rw [profit_factor, if_neg (by rw [← heq]; exact lt_irrefl 0)]
      simp [← heq]
  · intro hne
    have hpos : 0 < gross_loss l := lt_of_le_of_ne h0 (Ne.symm hne)
    rw [profit_factor, if_pos hpos]
  · intro trades closed
    rfl

/-- C3 witness: the amended theorem applied to the one-element loss
sequence, where the gross loss is 1 and the profit factor is finite. -/
theorem C3_witness :
    profit_factor [(-1 : ℚ)] =
      EF.fin (gross_profit [(-1 : ℚ)] / gross_loss [(-1 : ℚ)]) :=
  (C3_profit_factor_iff_gross_loss_zero [(-1 : ℚ)]).2.1
    (by norm_num [gross_loss])

/-- C4: calculate_sharpe_ratio returns 0.0 on the empty sequence, on every
sequence whose standard deviation is 0, in particular on every
single-element sequence (sample variance with the n-1 convention
degenerates to 0 there), and otherwise returns
(mean - 0.02) / standard deviation. -/
theorem C4_sharpe_zero_policy :
    ( calculate_sharpe_ratio ([] : List ℚ) = EF.fin 0) ∧
    (∀ l : List ℚ, standard_deviation l = EF.fin 0 →
      calculate_sharpe_ratio l = EF.fin 0) ∧
    (∀ x : ℚ, calculate_sharpe_ratio [x] = EF.fin 0) ∧
    (∀ l : List ℚ, l ≠ [] → standard_deviation l ≠ EF.fin 0 →
      calculate_sharpe_ratio l =
        fdivF (mean l - 1/50) (standard_deviation l)) := by
  have hsingle : ∀ x : ℚ, standard_deviation [x] = EF.fin 0 := by
    intro x
    have hv : variance [x] = 0 := by
      simp [variance]
    simp [standard_deviation, hv, qsqrt]
  refine ⟨rfl, ?_, ?_, ?_⟩
  · intro l h
    cases l with
    | nil => rfl
    | cons a t => simp [ calculate_sharpe_ratio, h]
  · intro x
    simp [ calculate_sharpe_ratio, hsingle x]
  · intro l h1 h2
    cases l with
    | nil => exact absurd rfl h1
    | cons a t => simp [ calculate_sharpe_ratio, h2]

/-- C4 witness: the single-element branch at [3], and the generic branch
at [0, 1] (standard deviation the irrational sqrt of 1/2). -/
theorem C4_witness :
    calculate_sharpe_ratio [(3 : ℚ)] = EF.fin 0 ∧
    calculate_sharpe_ratio [(0 : ℚ), 1] =
      fdivF (mean [(0 : ℚ), 1] - 1/50) (standard_deviation [(0 : ℚ), 1]) :=
  ⟨C4_sharpe_zero_policy.2.2.1 3,
    C4_sharpe_zero_policy.2.2.2 [0, 1] (by simp)
      (by
        have hs : standard_deviation [(0 : ℚ), 1] = EF.sqrtSym (1/2) := by
          norm_num [standard_deviation, variance, mean, qsqrt]
        rw [hs]
        intro hcon
        exact EF.noConfusion hcon)⟩

/-- Helper: the cache-hit branch of analyze_trades, shared by the cache
claims: with a held report and a timestamp younger than 5 minutes, the
call returns the held report, changes nothing and performs no repository
fetch and no builder invocation. -/
theorem analyze_trades_hit (now : ℤ) (repo : Except RepoErr (List Trade))
    (c : AnalysisCache) (a : TradeAnalysis) (lu : ℤ)
    (h1 : c.trade_analysis = some a) (h2 : c.last_update = some lu)
    (h3 : now - lu < 5) :
    analyze_trades now repo c = ⟨Except.ok a, c, 0, 0⟩ := by
  unfold analyze_trades
  rw [h1, h2]
  simp [h3]

/-- Helper: the miss condition expressed through cacheFresh, shared by the
cache claims: when the cache is not fresh, analyze_trades takes the miss
path. -/
theorem analyze_trades_not_fresh (now : ℤ)
    (repo : Except RepoErr (List Trade)) (c : AnalysisCache)
    (h : cacheFresh now c = false) :
    analyze_trades now repo c = analyzeMiss now repo c := by
  unfold analyze_trades
  split
  · rename_i a lu ha hlu
    have hlt : ¬ (now - lu < 5) := by
      unfold cacheFresh at h
      rw [ha, hlu] at h
      simpa using h
    rw [if_neg hlt]
  · rfl

/-- C5: for every cache state holding a report younger than 5 minutes, a
get_report call (analyze_trades) returns exactly the held report with no
repository fetch and no builder invocation and leaves the cache unchanged;
hence a second call still inside the freshness window returns the
identical report, with zero repository queries across both calls. -/
theorem C5_cache_fresh_serves_held_report (now now2 : ℤ)
    (repo repo2 : Except RepoErr (List Trade)) (c : AnalysisCache)
    (a : TradeAnalysis) (lu : ℤ)
    (h1 : c.trade_analysis = some a) (h2 : c.last_update = some lu)
    (h3 : now - lu < 5) (h4 : now2 - lu < 5) :
    (analyze_trades now repo c).result = Except.ok a ∧
    (analyze_trades now repo c).new_cache = c ∧
    (analyze_trades now repo c).repo_fetches = 0 ∧
    (analyze_trades now repo c).builder_calls = 0 ∧
    (analyze_trades now2 repo2 ((analyze_trades now repo c).new_cache)).result
      = Except.ok a ∧
    (analyze_trades now2 repo2
      ((analyze_trades now repo c).new_cache)).repo_fetches = 0 := by
  have hfirst := analyze_trades_hit now repo c a lu h1 h2 h3
  have hsecond := analyze_trades_hit now2 repo2 c a lu h1 h2 h4
  rw [hfirst]
  exact ⟨rfl, rfl, rfl, rfl, by rw [hsecond], by rw [hsecond]⟩

/-- C5 witness: the theorem at a cache refreshed at minute 0, with calls
at minutes 0 and 3 against an (irrelevant) empty repository. -/
theorem C5_witness :
    (analyze_trades 0 (Except.ok []) freshSampleCache).result =
      Except.ok TradeAnalysis.default ∧
    (analyze_trades 0 (Except.ok []) freshSampleCache).new_cache =
      freshSampleCache ∧
    (analyze_trades 0 (Except.ok []) freshSampleCache).repo_fetches = 0 ∧
    (analyze_trades 0 (Except.ok []) freshSampleCache).builder_calls = 0 ∧
    (analyze_trades 3 (Except.ok [])
      ((analyze_trades 0 (Except.ok []) freshSampleCache).new_cache)).result
        = Except.ok TradeAnalysis.default ∧
    (analyze_trades 3 (Except.ok [])
      ((analyze_trades 0 (Except.ok [])
        freshSampleCache).new_cache)).repo_fetches = 0 :=
  C5_cache_fresh_serves_held_report 0 3 (Except.ok []) (Except.ok [])
    freshSampleCache TradeAnalysis.default 0 rfl rfl (by norm_num)
    (by norm_num)

/-- C6: when the cache is not fresh (empty or stale) and the repository
fetch fails, analyze_trades propagates exactly that error to the caller
and the cache entry - held report and timestamp - is exactly what it was
before the call, after one repository fetch and no builder invocation. -/
theorem C6_repo_error_preserves_cache (now : ℤ) (e : RepoErr)
    (c : AnalysisCache) (h : cacheFresh now c = false) :
    analyze_trades now (Except.error e) c =
      ⟨Except.error e, c, 1, 0⟩ := by
  rw [analyze_trades_not_fresh now (Except.error e) c h]
  rfl

/-- C6 witness: the theorem at the empty startup cache with an unreachable
store. -/
theorem C6_witness :
    analyze_trades 0 (Except.error { msg := "store unreachable" })
        emptyCache =
      ⟨Except.error { msg := "store unreachable" }, emptyCache, 1, 0⟩ :=
  C6_repo_error_preserves_cache 0 { msg := "store unreachable" }
    emptyCache rfl

/-- C7: on a non-fresh cache and an empty trade list, analyze_trades
returns the canonical default report after one repository fetch and ZERO
builder invocations (perform_comprehensive_analysis, the sole gateway to
the eight sub-analyses, is never entered), and that default report has
every numeric field 0, every flag false and every collection empty, as
spelled out by the literal below. -/
theorem C7_empty_trades_default_report (now : ℤ) (c : AnalysisCache)
    (h : cacheFresh now c = false) :
    analyze_trades now (Except.ok []) c =
      ⟨Except.ok TradeAnalysis.default, c, 1, 0⟩ ∧
    TradeAnalysis.default =
      { summary :=
          { total_trades := 0, winning_trades := 0, losing_trades := 0
            open_trades := 0, win_rate := 0, net_profit := 0
            gross_profit := 0, gross_loss := 0, profit_factor := EF.fin 0
            expectancy := 0, average_trade := 0, sharpe_ratio := EF.fin 0
            max_drawdown := 0, recovery_factor := 0
            risk_of_ruin := EF.fin 0 }
        performance :=
          { total_return := 0, annual_return := 0, monthly_return := []
            daily_returns := [], volatility := EF.fin 0, alpha := 0
            beta := 0, r_squared := 0, information_ratio := 0
            calmar_ratio := 0, sortino_ratio := EF.fin 0, ulcer_index := 0 }
        psychological :=
          { emotional_impact :=
              { win_emotions := [], loss_emotions := []
                emotion_impact := [], confidence_trend := [] }
            consistency :=
              { win_streaks := [], loss_streaks := []
                consistency_score := 0, predictability := 0
                stability_index := 0 }
            behavioral_patterns :=
              { revenge_trading := false, overtrading := false
                hesitation := false, early_exits := false
                late_entries := false }
            stress_levels :=
              { stress_level := 0, risk_tolerance := 0
                discipline_score := 0, emotional_control := 0 } }
        technical :=
          { entry_accuracy := 0, exit_accuracy := 0, timing_efficiency := 0
            price_action :=
              { support_resistance_hits := 0, breakout_success := 0
                reversal_accuracy := 0, trend_following_success := 0 }
            indicator_performance :=
              { rsi_effectiveness := 0, macd_effectiveness := 0
                moving_average_effectiveness := 0
                bollinger_effectiveness := 0 } }
        ict_analysis :=
          { pattern_performance := [], timeframe_analysis := []
            combination_analysis :=
              { best_combinations := [], worst_combinations := []
                synergy_scores := [] }
            win_rates := [], heatmap_data := [] }
        time_analysis :=
          { hourly_analysis := [], daily_analysis := []
            monthly_analysis := []
            seasonal_analysis :=
              { quarterly_performance := [], seasonal_patterns := []
                best_season := "", worst_season := "" }
            session_analysis :=
              { asian_session :=
                  { session := "", total_trades := 0, win_rate := 0
                    net_profit := 0, average_holding := 0, volatility := 0 }
                london_session :=
                  { session := "", total_trades := 0, win_rate := 0
                    net_profit := 0, average_holding := 0, volatility := 0 }
                new_york_session :=
                  { session := "", total_trades := 0, win_rate := 0
                    net_profit := 0, average_holding := 0, volatility := 0 }
                overlap_sessions :=
                  { london_new_york :=
                      { session := "", total_trades := 0, win_rate := 0
                        net_profit := 0, average_holding := 0
                        volatility := 0 }
                    asian_london :=
                      { session := "", total_trades := 0, win_rate := 0
                        net_profit := 0, average_holding := 0
                        volatility := 0 }
                    all_sessions :=
                      { session := "", total_trades := 0, win_rate := 0
                        net_profit := 0, average_holding := 0
                        volatility := 0 } } } }
        risk_analysis :=
          { position_sizing :=
              { optimal_position_size := 0, kelly_criterion := 0
                risk_per_trade := 0, max_portfolio_risk := 0
                position_sizing_score := 0 }
            risk_metrics :=
              { standard_deviation := 0, semi_deviation := 0
                downside_deviation := 0, value_at_risk := 0
                conditional_var := 0, tail_risk := 0 }
            var_analysis :=
              { var_95 := 0, var_99 := 0, expected_shortfall := 0
                historical_var := 0, parametric_var := 0 }
            stress_testing :=
              { worst_case_scenario := 0, black_swan_impact := 0
                correlation_breakdown := 0, liquidity_crisis := 0 } }
        strategy_analysis :=
          { strategy_performance := [], strategy_correlation := []
            strategy_diversification := 0, optimal_strategy_mix := [] } } := by
  constructor
  · rw [analyze_trades_not_fresh now (Except.ok []) c h]
    rfl
  · rfl

/-- C7 witness: the theorem at the empty startup cache. -/
theorem C7_witness :
    analyze_trades 0 (Except.ok []) emptyCache =
      ⟨Except.ok TradeAnalysis.default, emptyCache, 1, 0⟩ :=
  (C7_empty_trades_default_report 0 emptyCache rfl).1

/-- C2: the claim says update_cache recomputes and replaces the cache
entry unconditionally.  It does not: update_cache only delegates to
analyze_trades, whose freshness check short-circuits, so on a cache
refreshed at minute 0 and called again at minute 0 against a repository
now holding one closed trade, update_cache performs ZERO repository
fetches and zero builder invocations and leaves the cache entry
unchanged - even though a real recomputation would produce a report with
total_trades = 1 instead of the cached default 0. -/
theorem C2_update_cache_skips_fresh_cache :
    (update_cache 0 (Except.ok [zeroClosedTrade])
        freshSampleCache).new_cache = freshSampleCache ∧
    (update_cache 0 (Except.ok [zeroClosedTrade])
        freshSampleCache).repo_fetches = 0 ∧
    (update_cache 0 (Except.ok [zeroClosedTrade])
        freshSampleCache).builder_calls = 0 ∧
    (update_cache 0 (Except.ok [zeroClosedTrade])
        freshSampleCache).result = Except.ok Unit.unit ∧
    AnalysisSummary.total_trades (TradeAnalysis.summary
      (perform_comprehensive_analysis [zeroClosedTrade])) = 1 ∧
    AnalysisSummary.total_trades (TradeAnalysis.summary
      TradeAnalysis.default) = 0 := by
  have hhit := analyze_trades_hit 0 (Except.ok [zeroClosedTrade])
    freshSampleCache TradeAnalysis.default 0 rfl rfl (by norm_num)
  refine ⟨?_, ?_, ?_, ?_, rfl, rfl⟩ <;> simp [update_cache, hhit, Except.map]

/-- Helper: the recorded maximum drawdown never decreases along the fold,
so it stays at least its initial value. -/
theorem ddFold_maxdd_mono (l : List ℚ) : ∀ st : DDState,
    st.max_drawdown ≤ (l.foldl ddStep st).max_drawdown := by
  induction l with
  | nil => intro st; simp
  | cons a t ih =>
    intro st
    refine le_trans ?_ (ih (ddStep st a))
    show st.max_drawdown ≤ (ddStep st a).max_drawdown
    have hle : ∀ x y : ℚ, y ≤ if x > y then x else y := by
      intro x y
      split
      · exact le_of_lt (by assumption)
      · exact le_refl y
    unfold ddStep
    exact hle _ _

/-- Helper: one drawdown step from a state whose peak equals its running
sum, fed a nonnegative return, reaches a state with the same property and
leaves the recorded maximum drawdown at 0. -/
theorem ddStep_preserves (st : DDState) (a : ℚ)
    (h1 : st.peak = st.running_sum) (h2 : st.max_drawdown = 0)
    (ha : 0 ≤ a) :
    (ddStep st a).peak = (ddStep st a).running_sum ∧
      (ddStep st a).max_drawdown = 0 := by
  unfold ddStep
  by_cases hc : st.running_sum + a > st.peak
  · simp only [hc, if_pos, if_true]
    constructor
    · simp
    · simp [h2]
  · have heq : st.running_sum + a = st.peak := by
      rw [h1] at hc ⊢
      have hle := not_lt.mp hc
      linarith
    simp only [hc, if_neg, if_false]
    constructor
    · simp [heq]
    · simp [heq, h2]

/-- Helper: folding the drawdown step over nonnegative returns from a
state with peak equal to running sum and recorded drawdown 0 keeps the
recorded drawdown at 0. -/
theorem ddFold_nonneg_zero (l : List ℚ) : ∀ st : DDState,
    st.peak = st.running_sum → st.max_drawdown = 0 →
    (∀ x ∈ l, 0 ≤ x) → (l.foldl ddStep st).max_drawdown = 0 := by
  induction l with
  | nil => intro st _ h2 _; simpa using h2
  | cons a t ih =>
    intro st h1 h2 hall
    have ha : 0 ≤ a := hall a (by simp)
    have hstep := ddStep_preserves st a h1 h2 ha
    simpa using ih (ddStep st a) hstep.1 hstep.2
      (fun x hx => hall x (List.mem_cons_of_mem a hx))

/-- C8: calculate_max_drawdown is nonnegative on every P/L sequence, and
is exactly 0 on every sequence of nonnegative values (for which the
running cumulative sum never falls below the running peak). -/
theorem C8_max_drawdown_nonneg (l : List ℚ) :
    0 ≤ calculate_max_drawdown l ∧
      ((∀ x ∈ l, 0 ≤ x) → calculate_max_drawdown l = 0) := by
  cases l with
  | nil => simp [calculate_max_drawdown]
  | cons r0 t =>
    constructor
    · have := ddFold_maxdd_mono (r0 :: t)
        { peak := r0, max_drawdown := 0, running_sum := 0 }
      simpa [calculate_max_drawdown] using this
    · intro hall
      show ((r0 :: t).foldl ddStep
        { peak := r0, max_drawdown := 0, running_sum := 0 }).max_drawdown = 0
      rw [List.foldl_cons]
      have hpeak :
          (ddStep { peak := r0, max_drawdown := 0, running_sum := 0 } r0).peak
            = (ddStep { peak := r0, max_drawdown := 0, running_sum := 0 }
                r0).running_sum := by
        unfold ddStep
        norm_num
      have hmdd :
          (ddStep { peak := r0, max_drawdown := 0, running_sum := 0 }
            r0).max_drawdown = 0 := by
        unfold ddStep
        norm_num
      exact ddFold_nonneg_zero t _ hpeak hmdd
        (fun x hx => hall x (List.mem_cons_of_mem r0 hx))

/-- C8 witness: the theorem at the nonnegative sequence [1, 2]. -/
theorem C8_witness :
    0 ≤ calculate_max_drawdown [(1 : ℚ), 2] ∧
      calculate_max_drawdown [(1 : ℚ), 2] = 0 :=
  ⟨(C8_max_drawdown_nonneg [(1 : ℚ), 2]).1,
    (C8_max_drawdown_nonneg [(1 : ℚ), 2]).2 (by
      intro x hx
      rcases List.mem_cons.mp hx with h | h
      · rw [h]; norm_num
      · rcases List.mem_singleton.mp h with h2
        rw [h2]; norm_num)⟩

/-- C9: for every new trade with an exit price, the stored row of
create_trade carries profit_loss_money = (exit - entry) * volume * 100000
with no dependence on the trade direction, and a win flag that is
profit_loss_money > 0 for a "Buy" trade but profit_loss_money < 0 for any
other direction - so a stored Sell winner has strictly negative realized
P/L and a stored Sell loser has nonnegative realized P/L. -/
theorem C9_create_trade_direction_flag (id : ℕ) (now : String)
    (t : NewTrade) (xp : ℚ) (hx : t.exit_price = some xp) :
    (create_trade id now t).profit_loss_money =
        some ((xp - t.entry_price) * t.volume * 100000) ∧
    (create_trade id now t).is_win = some
        (if t.trade_type = "Buy" then
          decide (0 < (xp - t.entry_price) * t.volume * 100000)
        else decide ((xp - t.entry_price) * t.volume * 100000 < 0)) ∧
    (t.trade_type ≠ "Buy" → (create_trade id now t).is_win = some true →
        (xp - t.entry_price) * t.volume * 100000 < 0) ∧
    (t.trade_type ≠ "Buy" → (create_trade id now t).is_win = some false →
        0 ≤ (xp - t.entry_price) * t.volume * 100000) := by
  have hm : calculate_trade_metrics t =
      ⟨some (if t.trade_type = "Buy" then
          decide (0 < (xp - t.entry_price) * t.volume * 100000)
        else decide ((xp - t.entry_price) * t.volume * 100000 < 0)),
       some (if containsSub t.symbol "JPY" then (xp - t.entry_price) * 100
         else (xp - t.entry_price) * 10000),
       some ((xp - t.entry_price) * t.volume * 100000),
       some (if 0 < |t.entry_price - t.sl| then
         |t.tp - t.entry_price| / |t.entry_price - t.sl| else 0)⟩ := by
    unfold calculate_trade_metrics
    rw [hx]
  refine ⟨?_, ?_, ?_, ?_⟩
  · simp [create_trade, hm]
  · simp [create_trade, hm]
  · intro hB hw
    simp [create_trade, hm, hB] at hw
    exact hw
  · intro hB hw
    simp [create_trade, hm, hB] at hw
    exact mul_nonneg hw (by norm_num)

/-- C9 witness: the theorem at a Sell trade entered at 1.2 and exited at
1.1 with volume 1: the stored P/L is -10000 and the stored flag is a win. -/
theorem C9_witness :
    (create_trade 7 "2026-01-02T00:00:00Z"
        sampleSellNewTrade).profit_loss_money = some (-10000) ∧
    (create_trade 7 "2026-01-02T00:00:00Z" sampleSellNewTrade).is_win =
        some true := by
  have h := C9_create_trade_direction_flag 7 "2026-01-02T00:00:00Z"
    sampleSellNewTrade (11/10) rfl
  constructor
  · rw [h.1]
    norm_num [sampleSellNewTrade, baseNewTrade]
  · rw [h.2.1]
    have hs : sampleSellNewTrade.trade_type = "Sell" := rfl
    rw [hs, if_neg (by decide)]
    norm_num [sampleSellNewTrade, baseNewTrade]

/-- C10: whatever columns the caller-supplied updates map names, the row
stored by update_trade has version = (version before) + 1 - the forced
`version = version + 1` SET clause is rightmost, reads the pre-update
value and wins over any caller assignment - and updated_at is set to the
update time. -/
theorem C10_update_trade_version_bump (now : String)
    (updates : List (String × SqlValue)) (row : Row) (n : ℤ)
    (h : rowGet row "version" = some (SqlValue.intV n)) :
    rowGet (update_trade now updates row) "version" =
        some (SqlValue.intV (n + 1)) ∧
    rowGet (update_trade now updates row) "updated_at" =
        some (SqlValue.textV now) := by
  unfold update_trade applyAssignments
  rw [List.foldl_append]
  simp only [List.foldl_cons, List.foldl_nil]
  rw [h]
  constructor
  · simp [rowGet, rowSet, List.find?, sqlPlusOne]
  · simp [rowGet, rowSet, List.find?, sqlPlusOne]

/-- C10 witness: the theorem at a row with version 3 and an updates map
that itself tries to set version to 99 - the stored version is still 4. -/
theorem C10_witness :
    rowGet (update_trade "2026-10-12T00:00:00Z"
        [("version", SqlValue.intV 99), ("notes", SqlValue.textV "x")]
        [("version", SqlValue.intV 3), ("symbol", SqlValue.textV "EURUSD")])
      "version" = some (SqlValue.intV 4) ∧
    rowGet (update_trade "2026-10-12T00:00:00Z"
        [("version", SqlValue.intV 99), ("notes", SqlValue.textV "x")]
        [("version", SqlValue.intV 3), ("symbol", SqlValue.textV "EURUSD")])
      "updated_at" = some (SqlValue.textV "2026-10-12T00:00:00Z") := by
  have h := C10_update_trade_version_bump "2026-10-12T00:00:00Z"
    [("version", SqlValue.intV 99), ("notes", SqlValue.textV "x")]
    [("version", SqlValue.intV 3), ("symbol", SqlValue.textV "EURUSD")]
    3 (by simp [rowGet, List.find?])
  exact ⟨h.1, h.2⟩
